import Mathlib

/-!
# Session manager of `UTcpClientObject` (src/UE/TcpClientObject.cpp)

Shallow embedding of the connection state machine, the send guard, the
receive loop and the event dispatcher.

* `FString` is a list of characters.
* The object's members are the fields of `UTcpClientObject`; the extra field
  `trace` records, in order, every call the object makes to a collaborator
  (socket transport, timer manager, delegates, game world).
* A collaborator's answer is an argument of the function that asks for it
  (`connectResult`, `sendResult`, `lastEvent`, the list of received packets,
  the packet parser, the game world), so every transport behaviour is covered
  by quantifying over these arguments.
* A timer handle holds at most one timer; `SetTimer` replaces it, `ClearTimer`
  empties it, and a one-shot timer leaves its handle when it fires.
* Dereferencing a null pointer is the result `Except.error`.
-/

namespace TcpClient

/-- Engine string, as its list of characters. -/
abbrev FString := List Char

/-- Folding of the letters A-Z to a-z, as the engine's string comparison does
it. -/
def ToLower (c : Char) : Char :=
  if 'A' ≤ c ∧ c ≤ 'Z' then Char.ofNat (c.toNat + 32) else c

/-- Engine operator `==` between an `FString` and a string literal
(Containers/UnrealString.h): it is `FPlatformString::Stricmp(...) == 0` and
documented as case insensitive, so two strings are equal when they agree
after the folding of letter case. -/
def FStringEq (a b : FString) : Bool :=
  a.map ToLower == b.map ToLower

/-- The socket object behind the `TcpSocket` pointer (class `FTcpSocket` of
TcpSocket.h); what it answers is supplied by the caller of each operation. -/
inductive FTcpSocket where
  | object
  deriving DecidableEq, Repr

/-- Member functions that are registered as timer callbacks. -/
inductive Callback where
  | RetryConnectToServer
  | SendPing
  | RetrySendEvent
  deriving DecidableEq, Repr

/-- Arguments of `FTimerManager::SetTimer`: callback, rate in seconds, loop
flag and first delay (`none` when the argument is left at its default). -/
structure FTimer where
  callback : Callback
  rate : Nat
  loop : Bool
  firstDelay : Option Nat
  deriving DecidableEq, Repr

/-- Seconds until the first firing of a timer. -/
def FTimer.delay (t : FTimer) : Nat := t.firstDelay.getD t.rate

/-- The three `FTimerHandle` members. -/
inductive TimerHandle where
  | Reconnect
  | Heartbeat
  | RetrySend
  deriving DecidableEq, Repr

/-- Calls made by the object to its collaborators. -/
inductive Action where
  | Connect (ServerAddress : FString) (ServerPort : Int)
  | Disconnect
  | SendEvent (EventName EventBody : FString)
  | GetLastEvent
  | ReceivePacket
  | ParsePacket (PacketBuffer : FString)
  | SetTimer (h : TimerHandle) (t : FTimer)
  | ClearTimer (h : TimerHandle)
  | OnConnectedToServer
  | OnPacketReceived (EventName EventBody : FString)
  | OnChatMessageReceived (SenderName Message : FString)
  | OnPrivateChatMessageReceived (SenderName Message : FString)
  | GetPlayerController (PlayerControllerId : FString)
  | SpawnPlayerController (PlayerControllerId : FString)
  | SpawnPawn (X Y : FString)
  | Possess (PlayerControllerId : FString)
  | GetPawn (PlayerControllerId : FString)
  | SetActorLocation (PlayerControllerId X Y : FString)
  | LoadObjectDataTable
  | FindRow (ObjectID : FString)
  | SpawnActor (ObjectID X Y : FString)
  deriving DecidableEq, Repr

/-- Faults that end the program. -/
inductive Fault where
  | nullTcpSocket
  | nullPlayerController
  deriving DecidableEq, Repr

/-- Members of the class (TcpClientObject.h, lines 67-74), the receive buffer
used by `ReceivePackets`, and the trace of collaborator calls. -/
structure UTcpClientObject where
  TcpSocket : Option FTcpSocket
  bIsPlayerConnected : Bool
  SavedServerAddress : FString
  SavedServerPort : Int
  ReconnectTimerHandle : Option FTimer
  HeartbeatTimerHandle : Option FTimer
  RetrySendTimerHandle : Option FTimer
  PacketBuffer : FString
  trace : List Action
  deriving DecidableEq, Repr

/-- Constructor (lines 8-12): null socket, flag false, all other members
in their default state. -/
def UTcpClientObject.construct : UTcpClientObject where
  TcpSocket := none
  bIsPlayerConnected := false
  SavedServerAddress := []
  SavedServerPort := 0
  ReconnectTimerHandle := none
  HeartbeatTimerHandle := none
  RetrySendTimerHandle := none
  PacketBuffer := []
  trace := []

/-- The timer armed by `ConnectToServer` on failure (line 31). -/
def reconnectTimer : FTimer := ⟨Callback.RetryConnectToServer, 5, false, none⟩

/-- The timer armed by `StartHeartbeatTimer` (line 96). -/
def heartbeatTimer : FTimer := ⟨Callback.SendPing, 5, true, none⟩

/-- The timer armed by `SendEvent` on failure (line 122). -/
def retrySendTimer : FTimer := ⟨Callback.RetrySendEvent, 1, false, some 1⟩

/-- Lines 89-92. -/
def StopHeartbeatTimer (s : UTcpClientObject) : UTcpClientObject :=
  { s with HeartbeatTimerHandle := none
           trace := s.trace ++ [Action.ClearTimer TimerHandle.Heartbeat] }

/-- Lines 94-97. -/
def StartHeartbeatTimer (s : UTcpClientObject) : UTcpClientObject :=
  { s with HeartbeatTimerHandle := some heartbeatTimer
           trace := s.trace ++ [Action.SetTimer TimerHandle.Heartbeat heartbeatTimer] }

/-- Lines 15-34. `connectResult` is what `TcpSocket->Connect` returns. -/
def ConnectToServer (connectResult : Bool) (s : UTcpClientObject)
    (ServerAddress : FString) (ServerPort : Int) : Bool × UTcpClientObject :=
  let s1 : UTcpClientObject :=
    { s with SavedServerAddress := ServerAddress
             SavedServerPort := ServerPort
             TcpSocket := some FTcpSocket.object
             trace := s.trace ++ [Action.Connect ServerAddress ServerPort] }
  let bIsConnected := connectResult
  if bIsConnected then
    let s2 : UTcpClientObject :=
      { s1 with bIsPlayerConnected := true
                trace := s1.trace ++ [Action.OnConnectedToServer] }
    (bIsConnected, StartHeartbeatTimer s2)
  else
    (bIsConnected,
      { s1 with ReconnectTimerHandle := some reconnectTimer
                trace := s1.trace ++ [Action.SetTimer TimerHandle.Reconnect reconnectTimer] })

/-- Lines 36-43. -/
def RetryConnectToServer (connectResult : Bool) (s : UTcpClientObject) : UTcpClientObject :=
  if !s.bIsPlayerConnected then
    (ConnectToServer connectResult s s.SavedServerAddress s.SavedServerPort).2
  else s

/-- Lines 47-57. -/
def DisconnectFromServer (s : UTcpClientObject) : UTcpClientObject :=
  let s1 := StopHeartbeatTimer s
  match s1.TcpSocket with
  | some _ => { s1 with TcpSocket := none, trace := s1.trace ++ [Action.Disconnect] }
  | none => s1

/-- Lines 60-71. -/
def DisconnectAndResetConnection (s : UTcpClientObject) : UTcpClientObject :=
  let s1 := StopHeartbeatTimer s
  let s2 : UTcpClientObject :=
    match s1.TcpSocket with
    | some _ => { s1 with TcpSocket := none, trace := s1.trace ++ [Action.Disconnect] }
    | none => s1
  { s2 with bIsPlayerConnected := false }

/-- Lines 73-82. -/
def ReconnectToServer (connectResult : Bool) (s : UTcpClientObject)
    (ServerAddress : FString) (ServerPort : Int) : Bool × UTcpClientObject :=
  if s.bIsPlayerConnected then (true, s)
  else ConnectToServer connectResult (DisconnectAndResetConnection s) ServerAddress ServerPort

/-- Lines 84-87. -/
def IsPlayerConnected (s : UTcpClientObject) : Bool := s.bIsPlayerConnected

/-- Lines 105-125. `sendResult` is what `TcpSocket->SendEvent` returns. -/
def SendEvent (sendResult : Bool) (s : UTcpClientObject)
    (EventName EventBody : FString) : Bool × UTcpClientObject :=
  if !s.bIsPlayerConnected then (false, s)
  else
    match s.TcpSocket with
    | none => (false, s)
    | some _ =>
      let s1 : UTcpClientObject :=
        { s with trace := s.trace ++ [Action.SendEvent EventName EventBody] }
      let bResult := sendResult
      if !bResult then
        (bResult,
          { s1 with RetrySendTimerHandle := some retrySendTimer
                    trace := s1.trace ++ [Action.SetTimer TimerHandle.RetrySend retrySendTimer] })
      else (bResult, s1)

/-- Lines 99-102. -/
def SendPing (sendResult : Bool) (s : UTcpClientObject) : UTcpClientObject :=
  (SendEvent sendResult s "PING".toList "".toList).2

/-- Lines 127-133. `lastEvent` is what `TcpSocket->GetLastEvent` hands back;
the call goes through the `TcpSocket` pointer without a null check. -/
def RetrySendEvent (lastEvent : FString × FString) (sendResult : Bool)
    (s : UTcpClientObject) : Except Fault UTcpClientObject :=
  match s.TcpSocket with
  | none => Except.error Fault.nullTcpSocket
  | some _ =>
    let s1 : UTcpClientObject := { s with trace := s.trace ++ [Action.GetLastEvent] }
    Except.ok (SendEvent sendResult s1 lastEvent.1 lastEvent.2).2

/-- Lines 135-140. The three arguments are the texts that `%d`, `%f`, `%f`
print for the controller id and the coordinates. -/
def SendMoveCommand (sendResult : Bool) (s : UTcpClientObject)
    (PlayerControllerId X Y : FString) : UTcpClientObject :=
  let EventBody := PlayerControllerId ++ ",".toList ++ X ++ ",".toList ++ Y
  (SendEvent sendResult s "MOVE".toList EventBody).2

/-- Lines 262-276. -/
def SendChatMessage (sendResult : Bool) (s : UTcpClientObject)
    (SenderName Message : FString) : Bool × UTcpClientObject :=
  if !s.bIsPlayerConnected then (false, s)
  else
    match s.TcpSocket with
    | none => (false, s)
    | some _ =>
      let EventBody := SenderName ++ ",".toList ++ Message
      (sendResult, { s with trace := s.trace ++ [Action.SendEvent "CHAT".toList EventBody] })

/-- Lines 323-337. -/
def SendPrivateChatMessage (sendResult : Bool) (s : UTcpClientObject)
    (_SenderName RecipientName Message : FString) : Bool × UTcpClientObject :=
  if !s.bIsPlayerConnected then (false, s)
  else
    match s.TcpSocket with
    | none => (false, s)
    | some _ =>
      let EventBody := RecipientName ++ ",".toList ++ Message
      (sendResult,
        { s with trace := s.trace ++ [Action.SendEvent "PRIVATE_CHAT".toList EventBody] })

/-- Pieces of a string between occurrences of the delimiter, empty ones kept. -/
def pieces (delim : Char) : FString → List FString
  | [] => [[]]
  | c :: cs =>
    if c = delim then [] :: pieces delim cs
    else
      match pieces delim cs with
      | [] => [[c]]
      | p :: ps => (c :: p) :: ps

/-- Engine routine `FString::ParseIntoArray(OutArray, Delim)` with a one
character delimiter; its third argument `InCullEmpty` is left at its default
`true`, so empty pieces are dropped. -/
def ParseIntoArray (s : FString) (delim : Char) : List FString :=
  (pieces delim s).filter (fun p => !p.isEmpty)

/-- Answers of the game world: whether a lookup or a spawn yields an object
(`true`) or a null pointer (`false`). Numeric fields are passed as the field
text to which `FCString::Atoi` / `FCString::Atof` are applied. -/
structure GameWorld where
  GetPlayerController : FString → Bool
  SpawnPlayerController : FString → Bool
  SpawnPawn : FString → FString → Bool
  GetPawn : FString → Bool
  LoadObjectDataTable : Bool
  FindRow : FString → Bool
  SpawnActor : FString → FString → FString → Bool

/-- Lines 142-167; returns the game-world calls made. -/
def SpawnObject (G : GameWorld) (ObjectID X Y : FString) : List Action :=
  if !G.LoadObjectDataTable then [Action.LoadObjectDataTable]
  else if !G.FindRow ObjectID then [Action.LoadObjectDataTable, Action.FindRow ObjectID]
  else [Action.LoadObjectDataTable, Action.FindRow ObjectID, Action.SpawnActor ObjectID X Y]

/-- Lines 207-235; returns the game-world calls made. `Possess` is called
through the controller pointer, which is null when the spawn failed. -/
def OnSpawnPlayer (G : GameWorld) (EventBody : FString) : Except Fault (List Action) :=
  match ParseIntoArray EventBody ',' with
  | [PlayerControllerId, X, Y] =>
    let found := G.GetPlayerController PlayerControllerId
    let lookup :=
      if found then [Action.GetPlayerController PlayerControllerId]
      else [Action.GetPlayerController PlayerControllerId,
            Action.SpawnPlayerController PlayerControllerId]
    let PlayerController := found || G.SpawnPlayerController PlayerControllerId
    if G.SpawnPawn X Y then
      if PlayerController then
        Except.ok (lookup ++ [Action.SpawnPawn X Y, Action.Possess PlayerControllerId])
      else Except.error Fault.nullPlayerController
    else Except.ok (lookup ++ [Action.SpawnPawn X Y])
  | _ => Except.ok []

/-- Lines 237-260; returns the game-world calls made (the read of the pawn
height on line 256 is part of `SetActorLocation`). -/
def OnMovePlayer (G : GameWorld) (EventBody : FString) : Except Fault (List Action) :=
  match ParseIntoArray EventBody ',' with
  | [PlayerControllerId, X, Y] =>
    if G.GetPlayerController PlayerControllerId then
      if G.GetPawn PlayerControllerId then
        Except.ok [Action.GetPlayerController PlayerControllerId,
                   Action.GetPawn PlayerControllerId,
                   Action.SetActorLocation PlayerControllerId X Y]
      else
        Except.ok [Action.GetPlayerController PlayerControllerId,
                   Action.GetPawn PlayerControllerId]
    else Except.ok [Action.GetPlayerController PlayerControllerId]
  | _ => Except.ok []

/-- Lines 278-290; returns the broadcast made. -/
def OnChatMessage (EventBody : FString) : Except Fault (List Action) :=
  match ParseIntoArray EventBody ',' with
  | [SenderName, Message] => Except.ok [Action.OnChatMessageReceived SenderName Message]
  | _ => Except.ok []

/-- Lines 339-351; returns the broadcast made. -/
def OnPrivateChatMessage (EventBody : FString) : Except Fault (List Action) :=
  match ParseIntoArray EventBody ',' with
  | [SenderName, Message] =>
    Except.ok [Action.OnPrivateChatMessageReceived SenderName Message]
  | _ => Except.ok []

/-- Lines 169-204: the dispatcher; returns the calls made to the game world
and to the chat delegates. -/
def OnPacketReceived (G : GameWorld) (EventName EventBody : FString) :
    Except Fault (List Action) :=
  if FStringEq EventName "MOVE".toList then OnMovePlayer G EventBody
  else if FStringEq EventName "SPAWN_PLAYER".toList then OnSpawnPlayer G EventBody
  else if FStringEq EventName "CHAT".toList then OnChatMessage EventBody
  else if FStringEq EventName "PRIVATE_CHAT".toList then OnPrivateChatMessage EventBody
  else if FStringEq EventName "SPAWN_OBJECT".toList then
    match ParseIntoArray EventBody ',' with
    | [ObjectID, X, Y] => Except.ok (SpawnObject G ObjectID X Y)
    | _ => Except.ok []
  else Except.ok []

/-- Transport routine `ParsePacket(buffer)`: the event found at the front of
the buffer, if any, and the buffer that remains (section 6 of the
specification). -/
abbrev PacketParser := FString → Option (FString × FString) × FString

/-- The `while` loop of lines 311-320. `packets` are the chunks for which
`ReceivePacket` returns true, in order; the call after the last one returns
false and ends the loop. -/
def receiveLoop (G : GameWorld) (ParsePacket : PacketParser) :
    List FString → UTcpClientObject → Except Fault UTcpClientObject
  | [], s => Except.ok { s with trace := s.trace ++ [Action.ReceivePacket] }
  | PacketData :: rest, s =>
    let PacketBuffer := s.PacketBuffer ++ PacketData
    let parsed := ParsePacket PacketBuffer
    let s1 : UTcpClientObject :=
      { s with PacketBuffer := parsed.2
               trace := s.trace ++ [Action.ReceivePacket, Action.ParsePacket PacketBuffer] }
    match parsed.1 with
    | some (EventName, EventBody) =>
      match OnPacketReceived G EventName EventBody with
      | Except.ok calls =>
        receiveLoop G ParsePacket rest
          { s1 with trace := s1.trace ++ [Action.OnPacketReceived EventName EventBody] ++ calls }
      | Except.error f => Except.error f
    | none => receiveLoop G ParsePacket rest s1

/-- Lines 299-321. -/
def ReceivePackets (G : GameWorld) (ParsePacket : PacketParser) (packets : List FString)
    (s : UTcpClientObject) : Except Fault UTcpClientObject :=
  if !s.bIsPlayerConnected then Except.ok s
  else
    match s.TcpSocket with
    | none => Except.ok s
    | some _ => receiveLoop G ParsePacket packets s

/-- Lines 292-297. -/
def Tick (G : GameWorld) (ParsePacket : PacketParser) (packets : List FString)
    (s : UTcpClientObject) : Except Fault UTcpClientObject :=
  ReceivePackets G ParsePacket packets s

/-- What the transport answers during one timer callback. -/
structure TransportReplies where
  Connect : Bool
  SendEvent : Bool
  GetLastEvent : FString × FString

/-- The timer held by a handle. -/
def timerAt (h : TimerHandle) (s : UTcpClientObject) : Option FTimer :=
  match h with
  | TimerHandle.Reconnect => s.ReconnectTimerHandle
  | TimerHandle.Heartbeat => s.HeartbeatTimerHandle
  | TimerHandle.RetrySend => s.RetrySendTimerHandle

/-- The timer manager drops an expired one-shot timer from its handle. -/
def expire (h : TimerHandle) (s : UTcpClientObject) : UTcpClientObject :=
  match h with
  | TimerHandle.Reconnect => { s with ReconnectTimerHandle := none }
  | TimerHandle.Heartbeat => { s with HeartbeatTimerHandle := none }
  | TimerHandle.RetrySend => { s with RetrySendTimerHandle := none }

/-- Runs a registered callback. -/
def invoke (c : Callback) (R : TransportReplies) (s : UTcpClientObject) :
    Except Fault UTcpClientObject :=
  match c with
  | Callback.RetryConnectToServer => Except.ok (RetryConnectToServer R.Connect s)
  | Callback.SendPing => Except.ok (SendPing R.SendEvent s)
  | Callback.RetrySendEvent => RetrySendEvent R.GetLastEvent R.SendEvent s

/-- The timer manager fires the timer held by `h`, if there is one: a one-shot
timer leaves its handle, a looping one stays, and the callback runs. -/
def fireTimer (h : TimerHandle) (R : TransportReplies) (s : UTcpClientObject) :
    Except Fault UTcpClientObject :=
  match timerAt h s with
  | none => Except.ok s
  | some t => invoke t.callback R (if t.loop then s else expire h s)

/-- Fires the timer held by `h` once for each element of the list. -/
def fireTimers (h : TimerHandle) :
    List TransportReplies → UTcpClientObject → Except Fault UTcpClientObject
  | [], s => Except.ok s
  | R :: Rs, s =>
    match fireTimer h R s with
    | Except.ok s1 => fireTimers h Rs s1
    | Except.error f => Except.error f

/-- One call from the application or the timer manager, with the transport
answers it meets. -/
inductive Op where
  | ConnectToServer (connectResult : Bool) (ServerAddress : FString) (ServerPort : Int)
  | RetryConnectToServer (connectResult : Bool)
  | DisconnectFromServer
  | DisconnectAndResetConnection
  | ReconnectToServer (connectResult : Bool) (ServerAddress : FString) (ServerPort : Int)
  | SendEvent (sendResult : Bool) (EventName EventBody : FString)
  | RetrySendEvent (lastEvent : FString × FString) (sendResult : Bool)
  | SendMoveCommand (sendResult : Bool) (PlayerControllerId X Y : FString)
  | SendChatMessage (sendResult : Bool) (SenderName Message : FString)
  | SendPrivateChatMessage (sendResult : Bool) (SenderName RecipientName Message : FString)
  | Tick (packets : List FString)
  | fire (h : TimerHandle) (R : TransportReplies)

/-- Effect of one call on the object. -/
def step (G : GameWorld) (ParsePacket : PacketParser) (op : Op) (s : UTcpClientObject) :
    Except Fault UTcpClientObject :=
  match op with
  | Op.ConnectToServer r a p => Except.ok (ConnectToServer r s a p).2
  | Op.RetryConnectToServer r => Except.ok (RetryConnectToServer r s)
  | Op.DisconnectFromServer => Except.ok (DisconnectFromServer s)
  | Op.DisconnectAndResetConnection => Except.ok (DisconnectAndResetConnection s)
  | Op.ReconnectToServer r a p => Except.ok (ReconnectToServer r s a p).2
  | Op.SendEvent r n b => Except.ok (SendEvent r s n b).2
  | Op.RetrySendEvent e r => RetrySendEvent e r s
  | Op.SendMoveCommand r i x y => Except.ok (SendMoveCommand r s i x y)
  | Op.SendChatMessage r n m => Except.ok (SendChatMessage r s n m).2
  | Op.SendPrivateChatMessage r n t m => Except.ok (SendPrivateChatMessage r s n t m).2
  | Op.Tick packets => Tick G ParsePacket packets s
  | Op.fire h R => fireTimer h R s

/-- Effect of a sequence of calls, first to last. -/
def run (G : GameWorld) (ParsePacket : PacketParser) :
    List Op → UTcpClientObject → Except Fault UTcpClientObject
  | [], s => Except.ok s
  | op :: ops, s =>
    match step G ParsePacket op s with
    | Except.ok s1 => run G ParsePacket ops s1
    | Except.error f => Except.error f

/-- States reachable from a freshly constructed object. -/
def Reachable (G : GameWorld) (ParsePacket : PacketParser) (s : UTcpClientObject) : Prop :=
  ∃ ops, run G ParsePacket ops UTcpClientObject.construct = Except.ok s

/-! ## Definitions used to state the properties -/

/-- First occurrence of `d`: the text before it and the text after it. -/
def splitFirst (d : Char) : FString → Option (FString × FString)
  | [] => none
  | c :: cs =>
    if c = d then some ([], cs)
    else
      match splitFirst d cs with
      | none => none
      | some (a, b) => some (c :: a, b)

/-- Modelled from the spec: `ParsePacket` of the socket transport (class
`FTcpSocket`, TcpSocket.h) is missing from the sources. Following the framing
example of section 8, a complete event is one line `NAME,body` ended by a
newline; the parser takes the first complete line off the front of the buffer
and leaves the buffer as it is when no line is complete. -/
def lineParser : PacketParser := fun buffer =>
  match splitFirst '\n' buffer with
  | none => (none, buffer)
  | some (line, rest) =>
    match splitFirst ',' line with
    | some (name, body) => (some (name, body), rest)
    | none => (some (line, []), rest)

/-- Specification side of the framing property (section 4.4, `drain`): the
events obtained by asking the parser again and again, at most `fuel` times,
until it reports no complete event. -/
def specDrain (ParsePacket : PacketParser) : Nat → FString → List (FString × FString)
  | 0, _ => []
  | fuel + 1, buffer =>
    match (ParsePacket buffer).1 with
    | some e => e :: specDrain ParsePacket fuel (ParsePacket buffer).2
    | none => []

/-- The events handed to the dispatcher in a trace, in order. -/
def eventsOf (t : List Action) : List (FString × FString) :=
  t.filterMap fun a =>
    match a with
    | Action.OnPacketReceived n b => some (n, b)
    | _ => none

/-- The events handed to the dispatcher so far, read off the trace. -/
def dispatched (s : UTcpClientObject) : List (FString × FString) :=
  eventsOf s.trace

/-- A connected session: a fresh object after one successful connect. -/
def connected : UTcpClientObject :=
  (ConnectToServer true UTcpClientObject.construct "10.0.0.1".toList 4000).2

/-- A game world in which every lookup and every spawn yields null. -/
def stubWorld : GameWorld where
  GetPlayerController := fun _ => false
  SpawnPlayerController := fun _ => false
  SpawnPawn := fun _ _ => false
  GetPawn := fun _ => false
  LoadObjectDataTable := false
  FindRow := fun _ => false
  SpawnActor := fun _ _ _ => false

/-- The block `k` times in a row. -/
def cycles (block : List Action) : Nat → List Action
  | 0 => []
  | k + 1 => block ++ cycles block k

/-- Number of fields the handler of a name expects (section 4.5), the name
being matched as the dispatcher matches it; 0 for a name without handler. -/
def arity (EventName : FString) : Nat :=
  if FStringEq EventName "MOVE".toList || FStringEq EventName "SPAWN_PLAYER".toList
      || FStringEq EventName "SPAWN_OBJECT".toList then 3
  else if FStringEq EventName "CHAT".toList || FStringEq EventName "PRIVATE_CHAT".toList then 2
  else 0

/-- The names that have a handler. -/
def handlerNames : List FString :=
  ["MOVE".toList, "SPAWN_PLAYER".toList, "CHAT".toList, "PRIVATE_CHAT".toList,
   "SPAWN_OBJECT".toList]

/-- The transport connect calls of a trace, in order. -/
def connectCalls (t : List Action) : List (FString × Int) :=
  t.filterMap fun a =>
    match a with
    | Action.Connect ServerAddress ServerPort => some (ServerAddress, ServerPort)
    | _ => none

/-- The transport send calls of a trace, in order. -/
def sendCalls (t : List Action) : List (FString × FString) :=
  t.filterMap fun a =>
    match a with
    | Action.SendEvent EventName EventBody => some (EventName, EventBody)
    | _ => none

/-- The last-event queries of a trace; `RetrySendEvent` makes exactly one per
invocation and nothing else makes any. -/
def lastEventQueries (t : List Action) : List Unit :=
  t.filterMap fun a =>
    match a with
    | Action.GetLastEvent => some ()
    | _ => none

/-- The trace of one failed send that is retried: the send call, the arming
of the retry timer, and the query for the last event made by the retry. -/
def failedSend (EventName EventBody : FString) : List Action :=
  [Action.SendEvent EventName EventBody,
   Action.SetTimer TimerHandle.RetrySend retrySendTimer,
   Action.GetLastEvent]

/-- The trace of one failed connect: the connect call and the arming of the
reconnect timer. -/
def failedConnect (ServerAddress : FString) (ServerPort : Int) : List Action :=
  [Action.Connect ServerAddress ServerPort,
   Action.SetTimer TimerHandle.Reconnect reconnectTimer]

/-- The object after `k` failed sends of an event, each followed by its
retry, and the final successful send: the trace has grown and the retry-send
handle is empty. -/
def afterRetries (s : UTcpClientObject) (EventName EventBody : FString) (k : Nat) :
    UTcpClientObject :=
  { s with RetrySendTimerHandle := none
           trace := s.trace ++ cycles (failedSend EventName EventBody) k
                      ++ [Action.SendEvent EventName EventBody] }

/-- The object after `n` failed connects to an endpoint, each followed by the
firing of the reconnect timer, and the final successful connect. -/
def afterReconnects (s : UTcpClientObject) (ServerAddress : FString) (ServerPort : Int)
    (n : Nat) : UTcpClientObject :=
  { s with SavedServerAddress := ServerAddress
           SavedServerPort := ServerPort
           TcpSocket := some FTcpSocket.object
           bIsPlayerConnected := true
           ReconnectTimerHandle := none
           HeartbeatTimerHandle := some heartbeatTimer
           trace := s.trace ++ cycles (failedConnect ServerAddress ServerPort) n
                      ++ [Action.Connect ServerAddress ServerPort, Action.OnConnectedToServer,
                          Action.SetTimer TimerHandle.Heartbeat heartbeatTimer] }

/-- The heartbeat half of the lifecycle property: a set heartbeat handle
implies a set connected flag. -/
def HeartbeatImpliesConnected (s : UTcpClientObject) : Prop :=
  s.HeartbeatTimerHandle ≠ none → s.bIsPlayerConnected = true

instance (s : UTcpClientObject) : Decidable (HeartbeatImpliesConnected s) := by
  unfold HeartbeatImpliesConnected
  infer_instance

/-- The stored endpoint: the saved address and port. -/
def endpoint (s : UTcpClientObject) : FString × Int :=
  (s.SavedServerAddress, s.SavedServerPort)

/-- The connected session after a `SendEvent` that the transport refused: a
retry is pending. -/
def retryPending : UTcpClientObject :=
  (SendEvent false connected "PING".toList []).2

/-- A fresh object after a `ConnectToServer` that the transport refused: a
reconnect is pending. -/
def reconnectPending : UTcpClientObject :=
  (ConnectToServer false UTcpClientObject.construct "10.0.0.1".toList 4000).2

/-- The object in the middle of a retry chain: after the first send of an
event and `j` firings of the retry-send timer, all of them refused by the
transport. The retry-send handle holds the timer armed by the last failure. -/
def duringRetries (s : UTcpClientObject) (EventName EventBody : FString) (j : Nat) :
    UTcpClientObject :=
  { s with RetrySendTimerHandle := some retrySendTimer
           trace := s.trace ++ cycles (failedSend EventName EventBody) j
                      ++ [Action.SendEvent EventName EventBody,
                          Action.SetTimer TimerHandle.RetrySend retrySendTimer] }

/-- Number of timers pending on a handle: 0 or 1, as the handle is empty or
not. -/
def pendingAt (h : TimerHandle) (s : UTcpClientObject) : Nat :=
  (timerAt h s).toList.length

/-! ## Properties -/

/-- C1: `DisconnectFromServer` stops the heartbeat and releases the socket but
never writes the connected flag, so `IsPlayerConnected` answers after it what
it answered before; on a connected session it still answers true, whereas
`DisconnectAndResetConnection` makes it answer false. -/
theorem DisconnectFromServer_keeps_flag :
    (∀ s : UTcpClientObject,
        IsPlayerConnected (DisconnectFromServer s) = IsPlayerConnected s
        ∧ (DisconnectFromServer s).HeartbeatTimerHandle = none
        ∧ (DisconnectFromServer s).TcpSocket = none)
    ∧ IsPlayerConnected connected = true
    ∧ IsPlayerConnected (DisconnectFromServer connected) = true
    ∧ IsPlayerConnected (DisconnectAndResetConnection connected) = false := by
  refine ⟨?_, by decide, by decide, by decide⟩
  intro s
  unfold DisconnectFromServer IsPlayerConnected StopHeartbeatTimer
  cases s.TcpSocket <;> simp

/-- C4: when the session is not connected, or the socket pointer is null,
`SendEvent` returns false and leaves the object, trace included, exactly as
it was: no transport call, no timer call, no member changed. -/
theorem SendEvent_refuses (sendResult : Bool) (s : UTcpClientObject)
    (EventName EventBody : FString)
    (h : s.bIsPlayerConnected = false ∨ s.TcpSocket = none) :
    SendEvent sendResult s EventName EventBody = (false, s) := by
  unfold SendEvent
  rcases h with h | h
  · simp [h]
  · simp [h]

/-- Witness of `SendEvent_refuses`: a fresh object. -/
theorem SendEvent_refuses_witness :
    SendEvent true UTcpClientObject.construct "PING".toList [] =
      (false, UTcpClientObject.construct) :=
  SendEvent_refuses true UTcpClientObject.construct "PING".toList [] (Or.inl rfl)

/-- C5: on a connected session with a socket, `SendEvent` returns the
transport's result; on false it makes one send call and then arms the
retry-send handle with the one-shot timer of delay 1 that calls
`RetrySendEvent`; on true it makes the send call and nothing else. -/
theorem SendEvent_connected (sendResult : Bool) (s : UTcpClientObject)
    (EventName EventBody : FString) (sock : FTcpSocket)
    (hc : s.bIsPlayerConnected = true) (hs : s.TcpSocket = some sock) :
    (SendEvent sendResult s EventName EventBody).1 = sendResult
    ∧ (SendEvent false s EventName EventBody).2 =
        { s with RetrySendTimerHandle := some retrySendTimer
                 trace := s.trace ++ [Action.SendEvent EventName EventBody,
                            Action.SetTimer TimerHandle.RetrySend retrySendTimer] }
    ∧ retrySendTimer.callback = Callback.RetrySendEvent
    ∧ retrySendTimer.delay = 1
    ∧ retrySendTimer.loop = false
    ∧ (SendEvent true s EventName EventBody).2 =
        { s with trace := s.trace ++ [Action.SendEvent EventName EventBody] } := by
  refine ⟨?_, ?_, rfl, rfl, rfl, ?_⟩
  · cases sendResult <;> simp [SendEvent, hc, hs]
  · simp [SendEvent, hc, hs]
  · simp [SendEvent, hc, hs]

/-- Witness of `SendEvent_connected`: the connected session. -/
theorem SendEvent_connected_witness :
    (SendEvent false connected "PING".toList []).1 = false
    ∧ (SendEvent false connected "PING".toList []).2 =
        { connected with
            RetrySendTimerHandle := some retrySendTimer
            trace := connected.trace ++ [Action.SendEvent "PING".toList [],
                       Action.SetTimer TimerHandle.RetrySend retrySendTimer] }
    ∧ retrySendTimer.callback = Callback.RetrySendEvent
    ∧ retrySendTimer.delay = 1
    ∧ retrySendTimer.loop = false
    ∧ (SendEvent true connected "PING".toList []).2 =
        { connected with trace := connected.trace ++ [Action.SendEvent "PING".toList []] } :=
  SendEvent_connected false connected "PING".toList [] FTcpSocket.object rfl rfl

/-- On a session that is connected, a `ConnectToServer` whose transport
connect fails returns false and leaves `IsPlayerConnected` true. -/
theorem ConnectToServer_failure_keeps_connected :
    IsPlayerConnected connected = true
    ∧ (ConnectToServer false connected "10.0.0.1".toList 4000).1 = false
    ∧ ¬ IsPlayerConnected (ConnectToServer false connected "10.0.0.1".toList 4000).2 = false := by
  decide

/-- The two outcomes of `ConnectToServer`: it returns the transport's connect result. On
false it makes the connect call and arms the reconnect handle with the
one-shot timer of delay 5 that calls `RetryConnectToServer`, and a session
that was not connected before is not connected afterwards. On true the
session is connected, the connected notification is broadcast once and the
heartbeat timer is started. -/
theorem ConnectToServer_outcome (connectResult : Bool) (s : UTcpClientObject)
    (ServerAddress : FString) (ServerPort : Int) :
    (ConnectToServer connectResult s ServerAddress ServerPort).1 = connectResult
    ∧ (s.bIsPlayerConnected = false →
        IsPlayerConnected (ConnectToServer false s ServerAddress ServerPort).2 = false)
    ∧ (ConnectToServer false s ServerAddress ServerPort).2.ReconnectTimerHandle
        = some reconnectTimer
    ∧ (ConnectToServer false s ServerAddress ServerPort).2.trace
        = s.trace ++ [Action.Connect ServerAddress ServerPort,
                      Action.SetTimer TimerHandle.Reconnect reconnectTimer]
    ∧ reconnectTimer.callback = Callback.RetryConnectToServer
    ∧ reconnectTimer.delay = 5
    ∧ reconnectTimer.loop = false
    ∧ IsPlayerConnected (ConnectToServer true s ServerAddress ServerPort).2 = true
    ∧ (ConnectToServer true s ServerAddress ServerPort).2.trace
        = s.trace ++ [Action.Connect ServerAddress ServerPort, Action.OnConnectedToServer,
                      Action.SetTimer TimerHandle.Heartbeat heartbeatTimer]
    ∧ (ConnectToServer true s ServerAddress ServerPort).2.HeartbeatTimerHandle
        = some heartbeatTimer := by
  refine ⟨?_, ?_, ?_, ?_, rfl, rfl, rfl, ?_, ?_, ?_⟩
  · cases connectResult <;> simp [ConnectToServer]
  · intro h
    simp [ConnectToServer, IsPlayerConnected, h]
  · simp [ConnectToServer]
  · simp [ConnectToServer]
  · simp [ConnectToServer, IsPlayerConnected, StartHeartbeatTimer]
  · simp [ConnectToServer, StartHeartbeatTimer]
  · simp [ConnectToServer, StartHeartbeatTimer]

/-- Witness of `ConnectToServer_outcome`: a failed connect on a fresh
object. -/
theorem ConnectToServer_outcome_witness :
    UTcpClientObject.construct.bIsPlayerConnected = false
    ∧ IsPlayerConnected
        (ConnectToServer false UTcpClientObject.construct "10.0.0.1".toList 4000).2 = false :=
  ⟨rfl,
   (ConnectToServer_outcome false UTcpClientObject.construct "10.0.0.1".toList 4000).2.1 rfl⟩

/-- C9: on a session whose connected flag is set, `ReconnectToServer` returns
true and leaves the object, trace included, exactly as it was: no transport
call, no timer call, saved address and port and all handles unchanged. -/
theorem ReconnectToServer_connected (connectResult : Bool) (s : UTcpClientObject)
    (ServerAddress : FString) (ServerPort : Int)
    (h : IsPlayerConnected s = true) :
    ReconnectToServer connectResult s ServerAddress ServerPort = (true, s) := by
  unfold IsPlayerConnected at h
  simp [ReconnectToServer, h]

/-- Witness of `ReconnectToServer_connected`: the connected session, asked to
reconnect to another endpoint while the transport would refuse. -/
theorem ReconnectToServer_connected_witness :
    ReconnectToServer false connected "10.0.0.2".toList 4001 = (true, connected) :=
  ReconnectToServer_connected false connected "10.0.0.2".toList 4001 rfl

/-- A three-field handler does nothing on another number of fields. -/
theorem OnMovePlayer_drops (G : GameWorld) (EventBody : FString)
    (h : (ParseIntoArray EventBody ',').length ≠ 3) :
    OnMovePlayer G EventBody = Except.ok [] := by
  unfold OnMovePlayer
  generalize ParseIntoArray EventBody ',' = l at h
  match l, h with
  | [], _ => rfl
  | [_], _ => rfl
  | [_, _], _ => rfl
  | [_, _, _], h => exact absurd rfl h
  | _ :: _ :: _ :: _ :: _, _ => rfl

/-- The spawn handler does nothing on another number of fields. -/
theorem OnSpawnPlayer_drops (G : GameWorld) (EventBody : FString)
    (h : (ParseIntoArray EventBody ',').length ≠ 3) :
    OnSpawnPlayer G EventBody = Except.ok [] := by
  unfold OnSpawnPlayer
  generalize ParseIntoArray EventBody ',' = l at h
  match l, h with
  | [], _ => rfl
  | [_], _ => rfl
  | [_, _], _ => rfl
  | [_, _, _], h => exact absurd rfl h
  | _ :: _ :: _ :: _ :: _, _ => rfl

/-- The chat handler does nothing on another number of fields. -/
theorem OnChatMessage_drops (EventBody : FString)
    (h : (ParseIntoArray EventBody ',').length ≠ 2) :
    OnChatMessage EventBody = Except.ok [] := by
  unfold OnChatMessage
  generalize ParseIntoArray EventBody ',' = l at h
  match l, h with
  | [], _ => rfl
  | [_], _ => rfl
  | [_, _], h => exact absurd rfl h
  | _ :: _ :: _ :: _, _ => rfl

/-- The private chat handler does nothing on another number of fields. -/
theorem OnPrivateChatMessage_drops (EventBody : FString)
    (h : (ParseIntoArray EventBody ',').length ≠ 2) :
    OnPrivateChatMessage EventBody = Except.ok [] := by
  unfold OnPrivateChatMessage
  generalize ParseIntoArray EventBody ',' = l at h
  match l, h with
  | [], _ => rfl
  | [_], _ => rfl
  | [_, _], h => exact absurd rfl h
  | _ :: _ :: _ :: _, _ => rfl

/-- A name that matches one literal matches no literal different from it. -/
theorem FStringEq_other (n a b : FString) (h : FStringEq n a = true)
    (hab : FStringEq a b = false) : FStringEq n b = false := by
  unfold FStringEq at h hab ⊢
  rw [beq_iff_eq] at h
  rw [h]
  exact hab

/-- C10, as stated, fails in two ways. The name `chat` is not exactly one of
the five handler names, yet the dispatcher runs the chat handler on it and
the chat notification is broadcast. The body `bob,,hi` has three
comma-separated fields (the second one empty), not the two of the chat
handler, and the body `1,2,,3` has four, not the three of the move handler,
yet CHAT with the first is broadcast and MOVE with the second reaches the
game world: the comma split drops the empty field before the count. -/
theorem OnPacketReceived_ignores_case :
    "chat".toList ∉ handlerNames
    ∧ OnPacketReceived stubWorld "chat".toList "bob,hi".toList
        = Except.ok [Action.OnChatMessageReceived "bob".toList "hi".toList]
    ∧ pieces ',' "bob,,hi".toList = ["bob".toList, [], "hi".toList]
    ∧ (pieces ',' "bob,,hi".toList).length ≠ arity "CHAT".toList
    ∧ OnPacketReceived stubWorld "CHAT".toList "bob,,hi".toList
        = Except.ok [Action.OnChatMessageReceived "bob".toList "hi".toList]
    ∧ pieces ',' "1,2,,3".toList = ["1".toList, "2".toList, [], "3".toList]
    ∧ (pieces ',' "1,2,,3".toList).length ≠ arity "MOVE".toList
    ∧ OnPacketReceived stubWorld "MOVE".toList "1,2,,3".toList
        = Except.ok [Action.GetPlayerController "1".toList] :=
  ⟨by decide, rfl, by decide, by decide, rfl, by decide, by decide, rfl⟩

/-- C10, amended: when the event name matches none of MOVE, SPAWN_PLAYER,
CHAT, PRIVATE_CHAT, SPAWN_OBJECT under the comparison the dispatcher uses
(which ignores letter case), or the number of non-empty comma-separated
fields of the body (the pieces that the comma split keeps) differs from the
arity of the handler, the dispatcher ends normally and has made no call at all: no
game-world call, no chat and no private chat broadcast. -/
theorem OnPacketReceived_drops (G : GameWorld) (EventName EventBody : FString)
    (h : (∀ x ∈ handlerNames, FStringEq EventName x = false)
          ∨ (ParseIntoArray EventBody ',').length ≠ arity EventName) :
    OnPacketReceived G EventName EventBody = Except.ok [] := by
  unfold OnPacketReceived
  by_cases h1 : FStringEq EventName "MOVE".toList = true
  · rw [if_pos h1]
    rcases h with h | h
    · have := h "MOVE".toList (by simp [handlerNames])
      rw [h1] at this
      cases this
    · have ha : arity EventName = 3 := by
        unfold arity
        rw [h1]
        rfl
      exact OnMovePlayer_drops G EventBody (ha ▸ h)
  rw [if_neg h1]
  rw [Bool.not_eq_true] at h1
  by_cases h2 : FStringEq EventName "SPAWN_PLAYER".toList = true
  · rw [if_pos h2]
    rcases h with h | h
    · have := h "SPAWN_PLAYER".toList (by simp [handlerNames])
      rw [h2] at this
      cases this
    · have ha : arity EventName = 3 := by
        unfold arity
        rw [h1, h2]
        rfl
      exact OnSpawnPlayer_drops G EventBody (ha ▸ h)
  rw [if_neg h2]
  rw [Bool.not_eq_true] at h2
  by_cases h3 : FStringEq EventName "CHAT".toList = true
  · rw [if_pos h3]
    rcases h with h | h
    · have := h "CHAT".toList (by simp [handlerNames])
      rw [h3] at this
      cases this
    · have h5 := FStringEq_other EventName _ "SPAWN_OBJECT".toList h3 (by decide)
      have ha : arity EventName = 2 := by
        unfold arity
        rw [h1, h2, h3, h5]
        rfl
      exact OnChatMessage_drops EventBody (ha ▸ h)
  rw [if_neg h3]
  rw [Bool.not_eq_true] at h3
  by_cases h4 : FStringEq EventName "PRIVATE_CHAT".toList = true
  · rw [if_pos h4]
    rcases h with h | h
    · have := h "PRIVATE_CHAT".toList (by simp [handlerNames])
      rw [h4] at this
      cases this
    · have h5 := FStringEq_other EventName _ "SPAWN_OBJECT".toList h4 (by decide)
      have ha : arity EventName = 2 := by
        unfold arity
        rw [h1, h2, h3, h4, h5]
        rfl
      exact OnPrivateChatMessage_drops EventBody (ha ▸ h)
  rw [if_neg h4]
  by_cases h5 : FStringEq EventName "SPAWN_OBJECT".toList = true
  · rw [if_pos h5]
    rcases h with h | h
    · have := h "SPAWN_OBJECT".toList (by simp [handlerNames])
      rw [h5] at this
      cases this
    · have ha : arity EventName = 3 := by
        unfold arity
        rw [h1, h2, h5]
        rfl
      have hlen : (ParseIntoArray EventBody ',').length ≠ 3 := ha ▸ h
      generalize ParseIntoArray EventBody ',' = l at hlen
      match l, hlen with
      | [], _ => rfl
      | [_], _ => rfl
      | [_, _], _ => rfl
      | [_, _, _], hlen => exact absurd rfl hlen
      | _ :: _ :: _ :: _ :: _, _ => rfl
  rw [if_neg h5]

/-- Witness of `OnPacketReceived_drops`: CHAT with the body `onlyonefield`
produces no chat notification. -/
theorem OnPacketReceived_drops_witness :
    (ParseIntoArray "onlyonefield".toList ',').length ≠ arity "CHAT".toList
    ∧ OnPacketReceived stubWorld "CHAT".toList "onlyonefield".toList = Except.ok [] :=
  ⟨by decide,
   OnPacketReceived_drops stubWorld "CHAT".toList "onlyonefield".toList
     (Or.inr (by decide))⟩

/-- Send calls of `k` failed sends: `k` times the same event. -/
theorem sendCalls_cycles (EventName EventBody : FString) (k : Nat) :
    sendCalls (cycles (failedSend EventName EventBody) k)
      = List.replicate k (EventName, EventBody) := by
  induction k with
  | zero => rfl
  | succ k ih =>
    have : sendCalls (cycles (failedSend EventName EventBody) (k + 1))
        = (EventName, EventBody) :: sendCalls (cycles (failedSend EventName EventBody) k) := rfl
    rw [this, ih, List.replicate_succ]

/-- Last-event queries of `k` failed sends: `k` of them. -/
theorem lastEventQueries_cycles (EventName EventBody : FString) (k : Nat) :
    lastEventQueries (cycles (failedSend EventName EventBody) k) = List.replicate k () := by
  induction k with
  | zero => rfl
  | succ k ih =>
    have : lastEventQueries (cycles (failedSend EventName EventBody) (k + 1))
        = () :: lastEventQueries (cycles (failedSend EventName EventBody) k) := rfl
    rw [this, ih, List.replicate_succ]

/-- Connect calls of `n` failed connects: `n` times the same endpoint. -/
theorem connectCalls_cycles (ServerAddress : FString) (ServerPort : Int) (n : Nat) :
    connectCalls (cycles (failedConnect ServerAddress ServerPort) n)
      = List.replicate n (ServerAddress, ServerPort) := by
  induction n with
  | zero => rfl
  | succ n ih =>
    have : connectCalls (cycles (failedConnect ServerAddress ServerPort) (n + 1))
        = (ServerAddress, ServerPort)
            :: connectCalls (cycles (failedConnect ServerAddress ServerPort) n) := rfl
    rw [this, ih, List.replicate_succ]

/-- The retry chain, by induction on the number of failures. -/
theorem fireTimers_retry (k : Nat) (s : UTcpClientObject) (EventName EventBody : FString)
    (sock : FTcpSocket) (r0 : Bool) (Rs : List TransportReplies)
    (hc : s.bIsPlayerConnected = true) (hs : s.TcpSocket = some sock)
    (hp : k = 0 → s.RetrySendTimerHandle = none)
    (hres : r0 :: Rs.map (fun R => R.SendEvent) = List.replicate k false ++ [true])
    (hlast : ∀ R ∈ Rs, R.GetLastEvent = (EventName, EventBody)) :
    fireTimers TimerHandle.RetrySend Rs (SendEvent r0 s EventName EventBody).2 =
      Except.ok (afterRetries s EventName EventBody k) := by
  unfold afterRetries
  induction k generalizing s r0 Rs with
  | zero =>
    simp only [List.replicate, List.nil_append, List.cons.injEq, List.map_eq_nil_iff] at hres
    obtain ⟨h0, hnil⟩ := hres
    subst h0 hnil
    have hp0 := hp rfl
    simp [fireTimers, SendEvent, hc, hs, cycles, ← hp0]
  | succ k ih =>
    simp only [List.replicate, List.cons_append, List.cons.injEq] at hres
    obtain ⟨h0, hmap⟩ := hres
    subst h0
    cases Rs with
    | nil =>
      have := congrArg List.length hmap
      simp at this
    | cons R Rs1 =>
      have hl := hlast R (by simp)
      have := ih
        { s with RetrySendTimerHandle := none
                 trace := s.trace ++ failedSend EventName EventBody }
        R.SendEvent Rs1 hc hs (fun _ => rfl) hmap
        (fun R1 h1 => hlast R1 (by simp [h1]))
      simp only [fireTimers, fireTimer, timerAt, SendEvent, hc, hs, expire, invoke,
        RetrySendEvent, retrySendTimer, hl, failedSend, cycles] at this ⊢
      simpa using this

/-- The reconnect loop, by induction on the number of failures. -/
theorem fireTimers_reconnect (n : Nat) (s : UTcpClientObject) (ServerAddress : FString)
    (ServerPort : Int) (r0 : Bool) (Rs : List TransportReplies)
    (hc : s.bIsPlayerConnected = false) (hp : n = 0 → s.ReconnectTimerHandle = none)
    (hres : r0 :: Rs.map (fun R => R.Connect) = List.replicate n false ++ [true]) :
    fireTimers TimerHandle.Reconnect Rs (ConnectToServer r0 s ServerAddress ServerPort).2 =
      Except.ok (afterReconnects s ServerAddress ServerPort n) := by
  unfold afterReconnects
  induction n generalizing s r0 Rs with
  | zero =>
    simp only [List.replicate, List.nil_append, List.cons.injEq, List.map_eq_nil_iff] at hres
    obtain ⟨h0, hnil⟩ := hres
    subst h0 hnil
    have hp0 := hp rfl
    simp [fireTimers, ConnectToServer, StartHeartbeatTimer, cycles, ← hp0]
  | succ n ih =>
    simp only [List.replicate, List.cons_append, List.cons.injEq] at hres
    obtain ⟨h0, hmap⟩ := hres
    subst h0
    cases Rs with
    | nil =>
      have := congrArg List.length hmap
      simp at this
    | cons R Rs1 =>
      have := ih
        { s with SavedServerAddress := ServerAddress
                 SavedServerPort := ServerPort
                 TcpSocket := some FTcpSocket.object
                 ReconnectTimerHandle := none
                 trace := s.trace ++ failedConnect ServerAddress ServerPort }
        R.Connect Rs1 hc (fun _ => rfl) hmap
      simp only [fireTimers, fireTimer, timerAt, ConnectToServer, expire, invoke,
        RetryConnectToServer, reconnectTimer, hc, failedConnect, cycles] at this ⊢
      simpa using this

/-- The middle of the retry chain, by induction on the number of firings:
while the transport keeps refusing, each firing leaves exactly the timer
armed by the last failure. -/
theorem fireTimers_retry_middle (j k : Nat) (s : UTcpClientObject)
    (EventName EventBody : FString) (sock : FTcpSocket) (r0 : Bool)
    (Rs : List TransportReplies) (hjk : j < k)
    (hc : s.bIsPlayerConnected = true) (hs : s.TcpSocket = some sock)
    (hres : r0 :: Rs.map (fun R => R.SendEvent) = List.replicate k false ++ [true])
    (hlast : ∀ R ∈ Rs, R.GetLastEvent = (EventName, EventBody)) :
    fireTimers TimerHandle.RetrySend (Rs.take j) (SendEvent r0 s EventName EventBody).2 =
      Except.ok (duringRetries s EventName EventBody j) := by
  unfold duringRetries
  induction j generalizing k s r0 Rs with
  | zero =>
    cases k with
    | zero => exact absurd hjk (by decide)
    | succ k =>
      simp only [List.replicate, List.cons_append, List.cons.injEq] at hres
      obtain ⟨h0, _⟩ := hres
      subst h0
      simp [fireTimers, SendEvent, hc, hs, cycles]
  | succ j ih =>
    cases k with
    | zero => exact absurd hjk (Nat.not_lt_zero _)
    | succ k =>
      simp only [List.replicate, List.cons_append, List.cons.injEq] at hres
      obtain ⟨h0, hmap⟩ := hres
      subst h0
      cases Rs with
      | nil =>
        have := congrArg List.length hmap
        simp at this
      | cons R Rs1 =>
        have hl := hlast R (by simp)
        have := ih k
          { s with RetrySendTimerHandle := none
                   trace := s.trace ++ failedSend EventName EventBody }
          R.SendEvent Rs1 (Nat.lt_of_succ_lt_succ hjk) hc hs hmap
          (fun R1 h1 => hlast R1 (by simp [h1]))
        simp only [List.take_succ_cons, fireTimers, fireTimer, timerAt, SendEvent, hc, hs,
          expire, invoke, RetrySendEvent, retrySendTimer, hl, failedSend, cycles] at this ⊢
        simpa using this

/-- C6, as stated, fails for `k = 0` on a session that still has a retry
pending from an earlier failed send. On the session `retryPending`
(reachable: connect, then a refused send of PING) the send of CHAT `bob,hi`
succeeds at once, `SendEvent` leaves the armed retry timer in place, and
when that timer fires `RetrySendEvent` runs once (one last-event query, a
second send of the event), not zero times. -/
theorem stale_retry_fires_after_success :
    (∀ G ParsePacket, Reachable G ParsePacket retryPending)
    ∧ IsPlayerConnected retryPending = true
    ∧ retryPending.TcpSocket = some FTcpSocket.object
    ∧ lastEventQueries retryPending.trace = []
    ∧ (SendEvent true retryPending "CHAT".toList "bob,hi".toList).1 = true
    ∧ (SendEvent true retryPending "CHAT".toList "bob,hi".toList).2.RetrySendTimerHandle
        = some retrySendTimer
    ∧ (fireTimer TimerHandle.RetrySend ⟨true, true, ("CHAT".toList, "bob,hi".toList)⟩
          (SendEvent true retryPending "CHAT".toList "bob,hi".toList).2).toOption.map
          (fun t => (lastEventQueries t.trace, sendCalls t.trace, t.RetrySendTimerHandle))
        = some ([()],
                [("PING".toList, []), ("CHAT".toList, "bob,hi".toList),
                 ("CHAT".toList, "bob,hi".toList)],
                none) :=
  ⟨fun _ _ => ⟨[Op.ConnectToServer true "10.0.0.1".toList 4000,
                 Op.SendEvent false "PING".toList []], rfl⟩,
   by decide, by decide, by decide, by decide, by decide, by decide⟩

/-- C6, amended: on a connected session with a socket, with a transport whose
send fails `k` times and then succeeds and whose last-event query returns the
event, and, when `k = 0`, with no retry left pending by an earlier failed
send, `SendEvent` followed by the firings of the retry-send timer, one per
remaining transport answer, ends normally after `k` firings. `RetrySendEvent`
has then run exactly `k` times (one last-event query each), the transport has
been handed the same event `k + 1` times, and no retry timer is pending, so
that a further firing does nothing. At every moment before that, that is
after the first send and any `j < k` firings, exactly one retry timer is
pending: the one armed by the last failure. -/
theorem retry_chain (k : Nat) (s : UTcpClientObject) (EventName EventBody : FString)
    (sock : FTcpSocket) (r0 : Bool) (Rs : List TransportReplies)
    (hc : IsPlayerConnected s = true) (hs : s.TcpSocket = some sock)
    (hp : k = 0 → s.RetrySendTimerHandle = none)
    (hres : r0 :: Rs.map (fun R => R.SendEvent) = List.replicate k false ++ [true])
    (hlast : ∀ R ∈ Rs, R.GetLastEvent = (EventName, EventBody)) :
    Rs.length = k
    ∧ fireTimers TimerHandle.RetrySend Rs (SendEvent r0 s EventName EventBody).2 =
        Except.ok (afterRetries s EventName EventBody k)
    ∧ lastEventQueries (afterRetries s EventName EventBody k).trace
        = lastEventQueries s.trace ++ List.replicate k ()
    ∧ sendCalls (afterRetries s EventName EventBody k).trace
        = sendCalls s.trace ++ List.replicate (k + 1) (EventName, EventBody)
    ∧ (afterRetries s EventName EventBody k).RetrySendTimerHandle = none
    ∧ (∀ R, fireTimer TimerHandle.RetrySend R (afterRetries s EventName EventBody k) =
        Except.ok (afterRetries s EventName EventBody k))
    ∧ pendingAt TimerHandle.RetrySend (afterRetries s EventName EventBody k) = 0
    ∧ ∀ j, j < k →
        fireTimers TimerHandle.RetrySend (Rs.take j) (SendEvent r0 s EventName EventBody).2 =
          Except.ok (duringRetries s EventName EventBody j)
        ∧ pendingAt TimerHandle.RetrySend (duringRetries s EventName EventBody j) = 1
        ∧ (duringRetries s EventName EventBody j).RetrySendTimerHandle
            = some retrySendTimer := by
  refine ⟨?_, fireTimers_retry k s EventName EventBody sock r0 Rs hc hs hp hres hlast,
    ?_, ?_, rfl, ?_, rfl, ?_⟩
  · have := congrArg List.length hres
    simpa using this
  · have h := lastEventQueries_cycles EventName EventBody k
    unfold lastEventQueries at h ⊢
    simp [afterRetries, List.filterMap_append, h]
  · have h := sendCalls_cycles EventName EventBody k
    unfold sendCalls at h ⊢
    simp [afterRetries, List.filterMap_append, h, List.replicate_succ']
  · intro R
    simp [fireTimer, timerAt, afterRetries]
  · intro j hj
    exact ⟨fireTimers_retry_middle j k s EventName EventBody sock r0 Rs hj hc hs hres hlast,
      rfl, rfl⟩

/-- Witness of `retry_chain`: two failures, then success, on the connected
session; after one firing one retry is pending, after two none. -/
theorem retry_chain_witness :
    fireTimers TimerHandle.RetrySend
        [⟨true, false, ("PING".toList, [])⟩, ⟨true, true, ("PING".toList, [])⟩]
        (SendEvent false connected "PING".toList []).2 =
      Except.ok (afterRetries connected "PING".toList [] 2)
    ∧ fireTimers TimerHandle.RetrySend
        ([⟨true, false, ("PING".toList, [])⟩, ⟨true, true, ("PING".toList, [])⟩].take 1)
        (SendEvent false connected "PING".toList []).2 =
      Except.ok (duringRetries connected "PING".toList [] 1) :=
  have h := retry_chain 2 connected "PING".toList [] FTcpSocket.object false
    [⟨true, false, ("PING".toList, [])⟩, ⟨true, true, ("PING".toList, [])⟩]
    rfl rfl (by decide) (by decide) (by decide)
  ⟨h.2.1, (h.2.2.2.2.2.2.2 1 (by decide)).1⟩

/-- C7: from a session that is not connected, with a transport whose connect
fails `n` times and then succeeds (and, when `n = 0`, with no reconnect timer
left pending by an earlier failure), `ConnectToServer` followed by the firings
of the reconnect timer, one per remaining transport answer, ends normally
after `n` firings. The session is then connected, the transport has been
asked to connect `n + 1` times, each time to the same address and port, the
heartbeat timer is set and no reconnect timer is pending. -/
theorem reconnect_loop (n : Nat) (s : UTcpClientObject) (ServerAddress : FString)
    (ServerPort : Int) (r0 : Bool) (Rs : List TransportReplies)
    (hc : IsPlayerConnected s = false) (hp : n = 0 → s.ReconnectTimerHandle = none)
    (hres : r0 :: Rs.map (fun R => R.Connect) = List.replicate n false ++ [true]) :
    Rs.length = n
    ∧ fireTimers TimerHandle.Reconnect Rs (ConnectToServer r0 s ServerAddress ServerPort).2 =
        Except.ok (afterReconnects s ServerAddress ServerPort n)
    ∧ IsPlayerConnected (afterReconnects s ServerAddress ServerPort n) = true
    ∧ connectCalls (afterReconnects s ServerAddress ServerPort n).trace
        = connectCalls s.trace ++ List.replicate (n + 1) (ServerAddress, ServerPort)
    ∧ (afterReconnects s ServerAddress ServerPort n).HeartbeatTimerHandle = some heartbeatTimer
    ∧ (afterReconnects s ServerAddress ServerPort n).ReconnectTimerHandle = none := by
  refine ⟨?_, fireTimers_reconnect n s ServerAddress ServerPort r0 Rs hc hp hres,
    rfl, ?_, rfl, rfl⟩
  · have := congrArg List.length hres
    simpa using this
  · have h := connectCalls_cycles ServerAddress ServerPort n
    unfold connectCalls at h ⊢
    simp [afterReconnects, List.filterMap_append, h, List.replicate_succ']

/-- Witness of `reconnect_loop`: `n = 2`, a fresh object whose transport
refuses the connection twice and then accepts it. -/
theorem reconnect_loop_witness :
    fireTimers TimerHandle.Reconnect
        [⟨false, true, ([], [])⟩, ⟨true, true, ([], [])⟩]
        (ConnectToServer false UTcpClientObject.construct "10.0.0.1".toList 4000).2 =
      Except.ok (afterReconnects UTcpClientObject.construct "10.0.0.1".toList 4000 2)
    ∧ IsPlayerConnected
        (afterReconnects UTcpClientObject.construct "10.0.0.1".toList 4000 2) = true :=
  have h := reconnect_loop 2 UTcpClientObject.construct "10.0.0.1".toList 4000 false
    [⟨false, true, ([], [])⟩, ⟨true, true, ([], [])⟩] rfl (by decide) (by decide)
  ⟨h.2.1, h.2.2.1⟩

/-- The receive loop writes neither the connected flag nor the heartbeat
handle. -/
theorem receiveLoop_frame (G : GameWorld) (ParsePacket : PacketParser)
    (packets : List FString) (s t : UTcpClientObject)
    (h : receiveLoop G ParsePacket packets s = Except.ok t) :
    t.bIsPlayerConnected = s.bIsPlayerConnected
    ∧ t.HeartbeatTimerHandle = s.HeartbeatTimerHandle := by
  induction packets generalizing s with
  | nil =>
    simp only [receiveLoop, Except.ok.injEq] at h
    subst h
    exact ⟨rfl, rfl⟩
  | cons PacketData rest ih =>
    simp only [receiveLoop] at h
    split at h
    · split at h
      · have hh := ih _ h
        exact hh
      · exact absurd h (by simp)
    · have hh := ih _ h
      exact hh

/-- `ConnectToServer` keeps the heartbeat half. -/
theorem ConnectToServer_inv (r : Bool) (s : UTcpClientObject) (a : FString) (p : Int)
    (h : HeartbeatImpliesConnected s) :
    HeartbeatImpliesConnected (ConnectToServer r s a p).2 := by
  unfold HeartbeatImpliesConnected at h ⊢
  cases r
  · simpa [ConnectToServer] using h
  · simp [ConnectToServer, StartHeartbeatTimer]

/-- `SendEvent` keeps the heartbeat half. -/
theorem SendEvent_inv (r : Bool) (s : UTcpClientObject) (n b : FString)
    (h : HeartbeatImpliesConnected s) :
    HeartbeatImpliesConnected (SendEvent r s n b).2 := by
  unfold HeartbeatImpliesConnected at h ⊢
  unfold SendEvent
  cases hc : s.bIsPlayerConnected <;> cases hs : s.TcpSocket <;> cases r <;>
    simp_all

/-- `RetrySendEvent` keeps the heartbeat half. -/
theorem RetrySendEvent_inv (e : FString × FString) (r : Bool) (s t : UTcpClientObject)
    (h : HeartbeatImpliesConnected s) (ht : RetrySendEvent e r s = Except.ok t) :
    HeartbeatImpliesConnected t := by
  unfold RetrySendEvent at ht
  cases hs : s.TcpSocket with
  | none => simp [hs] at ht
  | some sock =>
    simp only [hs, Except.ok.injEq] at ht
    subst ht
    exact SendEvent_inv r _ _ _ h

/-- A timer firing keeps the heartbeat half. -/
theorem fireTimer_inv (hd : TimerHandle) (R : TransportReplies) (s t : UTcpClientObject)
    (h : HeartbeatImpliesConnected s) (ht : fireTimer hd R s = Except.ok t) :
    HeartbeatImpliesConnected t := by
  unfold fireTimer at ht
  cases htm : timerAt hd s with
  | none =>
    simp only [htm, Except.ok.injEq] at ht
    subst ht
    exact h
  | some tm =>
    simp only [htm] at ht
    have h1 : HeartbeatImpliesConnected (if tm.loop = true then s else expire hd s) := by
      unfold HeartbeatImpliesConnected at h ⊢
      cases tm.loop <;> cases hd <;> simp [expire] <;> exact h
    generalize (if tm.loop = true then s else expire hd s) = u at ht h1
    cases hcb : tm.callback with
    | RetryConnectToServer =>
      simp only [hcb, invoke, Except.ok.injEq] at ht
      subst ht
      unfold RetryConnectToServer
      split
      · exact ConnectToServer_inv _ _ _ _ h1
      · exact h1
    | SendPing =>
      simp only [hcb, invoke, Except.ok.injEq] at ht
      subst ht
      exact SendEvent_inv _ _ _ _ h1
    | RetrySendEvent =>
      simp only [hcb, invoke] at ht
      exact RetrySendEvent_inv _ _ _ _ h1 ht

/-- Every call keeps the heartbeat half. -/
theorem step_inv (G : GameWorld) (ParsePacket : PacketParser) (op : Op)
    (s t : UTcpClientObject) (h : HeartbeatImpliesConnected s)
    (ht : step G ParsePacket op s = Except.ok t) : HeartbeatImpliesConnected t := by
  cases op with
  | ConnectToServer r a p =>
    simp only [step, Except.ok.injEq] at ht
    subst ht
    exact ConnectToServer_inv r s a p h
  | RetryConnectToServer r =>
    simp only [step, Except.ok.injEq] at ht
    subst ht
    unfold RetryConnectToServer
    split
    · exact ConnectToServer_inv _ _ _ _ h
    · exact h
  | DisconnectFromServer =>
    simp only [step, Except.ok.injEq] at ht
    subst ht
    unfold HeartbeatImpliesConnected DisconnectFromServer StopHeartbeatTimer
    cases s.TcpSocket <;> simp
  | DisconnectAndResetConnection =>
    simp only [step, Except.ok.injEq] at ht
    subst ht
    unfold HeartbeatImpliesConnected DisconnectAndResetConnection StopHeartbeatTimer
    cases s.TcpSocket <;> simp
  | ReconnectToServer r a p =>
    simp only [step, Except.ok.injEq] at ht
    subst ht
    unfold ReconnectToServer
    split
    · exact h
    · apply ConnectToServer_inv
      unfold HeartbeatImpliesConnected DisconnectAndResetConnection StopHeartbeatTimer
      cases s.TcpSocket <;> simp
  | SendEvent r n b =>
    simp only [step, Except.ok.injEq] at ht
    subst ht
    exact SendEvent_inv r s n b h
  | RetrySendEvent e r =>
    simp only [step] at ht
    exact RetrySendEvent_inv e r s t h ht
  | SendMoveCommand r i x y =>
    simp only [step, Except.ok.injEq] at ht
    subst ht
    exact SendEvent_inv _ _ _ _ h
  | SendChatMessage r n m =>
    simp only [step, Except.ok.injEq] at ht
    subst ht
    unfold HeartbeatImpliesConnected at h ⊢
    unfold SendChatMessage
    cases hc : s.bIsPlayerConnected <;> cases hs : s.TcpSocket <;> simp_all
  | SendPrivateChatMessage r n u m =>
    simp only [step, Except.ok.injEq] at ht
    subst ht
    unfold HeartbeatImpliesConnected at h ⊢
    unfold SendPrivateChatMessage
    cases hc : s.bIsPlayerConnected <;> cases hs : s.TcpSocket <;> simp_all
  | Tick packets =>
    simp only [step, Tick, ReceivePackets] at ht
    split at ht
    · simp only [Except.ok.injEq] at ht
      subst ht
      exact h
    · split at ht
      · simp only [Except.ok.injEq] at ht
        subst ht
        exact h
      · have hf := receiveLoop_frame G ParsePacket packets s t ht
        unfold HeartbeatImpliesConnected at h ⊢
        rw [hf.1, hf.2]
        exact h
  | fire hd R =>
    simp only [step] at ht
    exact fireTimer_inv hd R s t h ht

/-- In every reachable state a set heartbeat handle implies a set connected
flag: the heartbeat never runs on a session whose flag is cleared. -/
theorem heartbeat_implies_connected (G : GameWorld) (ParsePacket : PacketParser)
    (s : UTcpClientObject) (h : Reachable G ParsePacket s)
    (hb : s.HeartbeatTimerHandle ≠ none) : IsPlayerConnected s = true := by
  obtain ⟨ops, hrun⟩ := h
  have key : ∀ (ops : List Op) (u : UTcpClientObject), HeartbeatImpliesConnected u →
      run G ParsePacket ops u = Except.ok s → HeartbeatImpliesConnected s := by
    intro ops
    induction ops with
    | nil =>
      intro u hu hr
      simp only [run, Except.ok.injEq] at hr
      subst hr
      exact hu
    | cons op ops ih =>
      intro u hu hr
      simp only [run] at hr
      split at hr
      · rename_i u1 hstep
        exact ih u1 (step_inv G ParsePacket op u u1 hu hstep) hr
      · exact absurd hr (by simp)
  exact key ops UTcpClientObject.construct (fun hne => absurd rfl hne) hrun hb

/-- C2: the state reached from a fresh object by a successful
`ConnectToServer` followed by `DisconnectFromServer` has no heartbeat timer
while `IsPlayerConnected` is true. -/
theorem heartbeat_stopped_while_connected (G : GameWorld) (ParsePacket : PacketParser) :
    Reachable G ParsePacket (DisconnectFromServer connected)
    ∧ IsPlayerConnected (DisconnectFromServer connected) = true
    ∧ (DisconnectFromServer connected).HeartbeatTimerHandle = none :=
  ⟨⟨[Op.ConnectToServer true "10.0.0.1".toList 4000, Op.DisconnectFromServer], rfl⟩,
   by decide, by decide⟩

/-- The handlers call collaborators only: the calls returned by the dispatcher
contain no dispatch record. -/
theorem OnPacketReceived_calls (G : GameWorld) (n b : FString) (calls : List Action)
    (h : OnPacketReceived G n b = Except.ok calls) : eventsOf calls = [] := by
  unfold OnPacketReceived at h
  split_ifs at h
  · unfold OnMovePlayer at h
    split at h
    · split_ifs at h <;> (cases h; rfl)
    · cases h; rfl
  · unfold OnSpawnPlayer at h
    split at h
    · simp only at h
      split_ifs at h <;> (cases h; rfl)
    · cases h; rfl
  · unfold OnChatMessage at h
    split at h <;> (cases h; rfl)
  · unfold OnPrivateChatMessage at h
    split at h <;> (cases h; rfl)
  · split at h
    · cases h
      unfold SpawnObject
      split_ifs <;> rfl
    · cases h; rfl
  · cases h; rfl

/-- Whatever the parser and the game world, the receive loop hands the
dispatcher at most one event per received chunk. -/
theorem receiveLoop_bound (G : GameWorld) (ParsePacket : PacketParser)
    (packets : List FString) (s t : UTcpClientObject)
    (h : receiveLoop G ParsePacket packets s = Except.ok t) :
    (dispatched t).length ≤ (dispatched s).length + packets.length := by
  unfold dispatched
  induction packets generalizing s with
  | nil =>
    simp only [receiveLoop, Except.ok.injEq] at h
    subst h
    simp [eventsOf, List.filterMap_append]
  | cons PacketData rest ih =>
    simp only [receiveLoop] at h
    split at h
    · split at h
      · rename_i calls hcalls
        have hh := ih _ h
        have hc := OnPacketReceived_calls G _ _ calls hcalls
        unfold eventsOf at hh hc ⊢
        simp only [List.filterMap_append, List.length_append, hc] at hh
        simp only [List.length_cons]
        simp at hh
        omega
      · exact absurd h (by simp)
    · have hh := ih _ h
      unfold eventsOf at hh ⊢
      simp only [List.filterMap_append, List.length_append] at hh
      simp only [List.length_cons]
      simp at hh
      omega

/-- C3: with the line parser, the stream `MOVE,1,2.0,3.0\nCHAT,bob,hi\n`
holds two complete events. Received as one chunk, the loop hands only the
first to the dispatcher and ends with the second, complete, still in the
buffer; received as the chunks `MO`, `VE,1,2.0,3.0\nCH`, `AT,bob,hi\n` it hands
over both and ends with an empty buffer. -/
theorem ReceivePackets_one_event_per_chunk :
    specDrain lineParser 3 "MOVE,1,2.0,3.0\nCHAT,bob,hi\n".toList
      = [("MOVE".toList, "1,2.0,3.0".toList), ("CHAT".toList, "bob,hi".toList)]
    ∧ (ReceivePackets stubWorld lineParser ["MOVE,1,2.0,3.0\nCHAT,bob,hi\n".toList]
          connected).toOption.map (fun s => (dispatched s, s.PacketBuffer))
        = some ([("MOVE".toList, "1,2.0,3.0".toList)], "CHAT,bob,hi\n".toList)
    ∧ (lineParser "CHAT,bob,hi\n".toList).1 = some ("CHAT".toList, "bob,hi".toList)
    ∧ (ReceivePackets stubWorld lineParser
          ["MO".toList, "VE,1,2.0,3.0\nCH".toList, "AT,bob,hi\n".toList]
          connected).toOption.map (fun s => (dispatched s, s.PacketBuffer))
        = some ([("MOVE".toList, "1,2.0,3.0".toList), ("CHAT".toList, "bob,hi".toList)], []) := by
  decide

/-- C11: a second `DisconnectFromServer` leaves every member as the first one
left it (connected flag, null socket, saved address and port, buffer, the
three timer handles); it makes no transport call, its only call being the
clearing of the already empty heartbeat handle, and it ends normally. -/
theorem DisconnectFromServer_idempotent (s : UTcpClientObject) :
    DisconnectFromServer (DisconnectFromServer s) =
        { DisconnectFromServer s with
            trace := (DisconnectFromServer s).trace
                       ++ [Action.ClearTimer TimerHandle.Heartbeat] }
    ∧ (DisconnectFromServer s).TcpSocket = none
    ∧ (DisconnectFromServer s).HeartbeatTimerHandle = none := by
  unfold DisconnectFromServer StopHeartbeatTimer
  cases s.TcpSocket <;> simp

/-- C12: `SendChatMessage` and `SendPrivateChatMessage` never write the
retry-send handle. On the connected session, with a transport that refuses
the send, both return false after the one send call and no retry is pending,
whereas `SendEvent` with the same event arms the retry timer. -/
theorem chat_commands_schedule_no_retry :
    (∀ (r : Bool) (s : UTcpClientObject) (n m : FString),
        (SendChatMessage r s n m).2.RetrySendTimerHandle = s.RetrySendTimerHandle)
    ∧ (∀ (r : Bool) (s : UTcpClientObject) (n t m : FString),
        (SendPrivateChatMessage r s n t m).2.RetrySendTimerHandle = s.RetrySendTimerHandle)
    ∧ SendChatMessage false connected "bob".toList "hi".toList =
        (false, { connected with
                    trace := connected.trace
                               ++ [Action.SendEvent "CHAT".toList "bob,hi".toList] })
    ∧ SendPrivateChatMessage false connected "bob".toList "amy".toList "hi".toList =
        (false, { connected with
                    trace := connected.trace
                               ++ [Action.SendEvent "PRIVATE_CHAT".toList "amy,hi".toList] })
    ∧ connected.RetrySendTimerHandle = none
    ∧ (SendEvent false connected "CHAT".toList "bob,hi".toList).2.RetrySendTimerHandle
        = some retrySendTimer := by
  refine ⟨?_, ?_, by decide, by decide, by decide, by decide⟩
  · intro r s n m
    unfold SendChatMessage
    cases s.bIsPlayerConnected <;> cases s.TcpSocket <;> rfl
  · intro r s n t m
    unfold SendPrivateChatMessage
    cases s.bIsPlayerConnected <;> cases s.TcpSocket <;> rfl

/-- C14: when the session is not connected, or the socket pointer is null,
`Tick` ends normally and leaves the object, trace included, exactly as it
was: no receive call, no parse call, no event dispatched, buffer unchanged. -/
theorem Tick_not_connected (G : GameWorld) (ParsePacket : PacketParser)
    (packets : List FString) (s : UTcpClientObject)
    (h : IsPlayerConnected s = false ∨ s.TcpSocket = none) :
    Tick G ParsePacket packets s = Except.ok s := by
  unfold Tick ReceivePackets
  unfold IsPlayerConnected at h
  rcases h with h | h
  · simp [h]
  · cases hc : s.bIsPlayerConnected <;> simp [h]

/-- Witness of `Tick_not_connected`: a fresh object with two complete events
waiting on the wire. -/
theorem Tick_not_connected_witness :
    Tick stubWorld lineParser ["MOVE,1,2.0,3.0\nCHAT,bob,hi\n".toList]
        UTcpClientObject.construct = Except.ok UTcpClientObject.construct :=
  Tick_not_connected stubWorld lineParser ["MOVE,1,2.0,3.0\nCHAT,bob,hi\n".toList]
    UTcpClientObject.construct (Or.inl rfl)

/-- C16: the state reached from a fresh object by a successful connect, a
refused `SendEvent` and `DisconnectFromServer` (or
`DisconnectAndResetConnection`) has a retry pending and a null socket; when
the retry-send timer fires there, `RetrySendEvent` calls through the null
pointer. -/
theorem RetrySendEvent_null_socket (G : GameWorld) (ParsePacket : PacketParser) :
    Reachable G ParsePacket (DisconnectFromServer retryPending)
    ∧ (DisconnectFromServer retryPending).RetrySendTimerHandle = some retrySendTimer
    ∧ (DisconnectFromServer retryPending).TcpSocket = none
    ∧ (∀ R, fireTimer TimerHandle.RetrySend R (DisconnectFromServer retryPending)
          = Except.error Fault.nullTcpSocket)
    ∧ Reachable G ParsePacket (DisconnectAndResetConnection retryPending)
    ∧ (∀ R, fireTimer TimerHandle.RetrySend R (DisconnectAndResetConnection retryPending)
          = Except.error Fault.nullTcpSocket) :=
  ⟨⟨[Op.ConnectToServer true "10.0.0.1".toList 4000, Op.SendEvent false "PING".toList [],
      Op.DisconnectFromServer], rfl⟩,
   by decide, by decide, fun _ => rfl,
   ⟨[Op.ConnectToServer true "10.0.0.1".toList 4000, Op.SendEvent false "PING".toList [],
      Op.DisconnectAndResetConnection], rfl⟩,
   fun _ => rfl⟩

/-- C17: after a refused connect followed by `DisconnectFromServer` (or
`DisconnectAndResetConnection`) the reconnect timer is still pending; when it
fires, `RetryConnectToServer` asks the transport to connect to the saved
endpoint again, and if the transport accepts, the session is connected with
the heartbeat running, without any new connect or reconnect request. -/
theorem stale_reconnect_timer_revives :
    (DisconnectFromServer reconnectPending).ReconnectTimerHandle = some reconnectTimer
    ∧ connectCalls (DisconnectFromServer reconnectPending).trace
        = [("10.0.0.1".toList, 4000)]
    ∧ (fireTimer TimerHandle.Reconnect ⟨true, true, ([], [])⟩
          (DisconnectFromServer reconnectPending)).toOption.map
          (fun t => (connectCalls t.trace, IsPlayerConnected t, t.HeartbeatTimerHandle))
        = some ([("10.0.0.1".toList, 4000), ("10.0.0.1".toList, 4000)], true,
                some heartbeatTimer)
    ∧ (DisconnectAndResetConnection reconnectPending).ReconnectTimerHandle
        = some reconnectTimer
    ∧ (fireTimer TimerHandle.Reconnect ⟨true, true, ([], [])⟩
          (DisconnectAndResetConnection reconnectPending)).toOption.map
          (fun t => (connectCalls t.trace, IsPlayerConnected t, t.HeartbeatTimerHandle))
        = some ([("10.0.0.1".toList, 4000), ("10.0.0.1".toList, 4000)], true,
                some heartbeatTimer) := by
  decide

/-- C18: the sender name has no influence on `SendPrivateChatMessage`: for
any two sender names the result and the object afterwards are the same, and
on a connected session with a socket the transport is handed the event
PRIVATE_CHAT with the body made of the recipient, a comma and the message,
the result being the one of that send. -/
theorem SendPrivateChatMessage_sender_unused (sendResult : Bool) (s : UTcpClientObject)
    (Sender1 Sender2 RecipientName Message : FString) :
    SendPrivateChatMessage sendResult s Sender1 RecipientName Message
      = SendPrivateChatMessage sendResult s Sender2 RecipientName Message
    ∧ (IsPlayerConnected s = true → s.TcpSocket ≠ none →
        SendPrivateChatMessage sendResult s Sender1 RecipientName Message
          = (sendResult,
             { s with trace := s.trace ++ [Action.SendEvent "PRIVATE_CHAT".toList
                                  (RecipientName ++ ",".toList ++ Message)] })) := by
  refine ⟨rfl, ?_⟩
  intro hc hs
  unfold IsPlayerConnected at hc
  unfold SendPrivateChatMessage
  cases hsock : s.TcpSocket with
  | none => exact absurd hsock hs
  | some sock => simp [hc]

/-- Witness of `SendPrivateChatMessage_sender_unused`: the connected
session, senders `bob` and `eve`. -/
theorem SendPrivateChatMessage_sender_unused_witness :
    SendPrivateChatMessage true connected "bob".toList "amy".toList "hi".toList
      = SendPrivateChatMessage true connected "eve".toList "amy".toList "hi".toList
    ∧ SendPrivateChatMessage true connected "bob".toList "amy".toList "hi".toList
      = (true,
         { connected with
             trace := connected.trace ++ [Action.SendEvent "PRIVATE_CHAT".toList
                        ("amy".toList ++ ",".toList ++ "hi".toList)] }) :=
  have h := SendPrivateChatMessage_sender_unused true connected "bob".toList "eve".toList
    "amy".toList "hi".toList
  ⟨h.1, h.2 rfl (by decide)⟩

/-- The receive loop does not write the saved address and port. -/
theorem receiveLoop_endpoint (G : GameWorld) (ParsePacket : PacketParser)
    (packets : List FString) (s t : UTcpClientObject)
    (h : receiveLoop G ParsePacket packets s = Except.ok t) :
    endpoint t = endpoint s := by
  induction packets generalizing s with
  | nil =>
    simp only [receiveLoop, Except.ok.injEq] at h
    subst h
    rfl
  | cons PacketData rest ih =>
    simp only [receiveLoop] at h
    split at h
    · split at h
      · have hh := ih _ h
        exact hh
      · exact absurd h (by simp)
    · have hh := ih _ h
      exact hh

/-- `SendEvent` does not write the saved address and port. -/
theorem SendEvent_endpoint (r : Bool) (s : UTcpClientObject) (n b : FString) :
    endpoint (SendEvent r s n b).2 = endpoint s := by
  unfold SendEvent
  cases s.bIsPlayerConnected <;> cases s.TcpSocket <;> cases r <;> rfl

/-- `RetryConnectToServer` connects to the saved endpoint and so keeps it. -/
theorem RetryConnectToServer_endpoint (r : Bool) (s : UTcpClientObject) :
    endpoint (RetryConnectToServer r s) = endpoint s := by
  unfold RetryConnectToServer ConnectToServer
  cases s.bIsPlayerConnected <;> cases r <;> rfl

/-- `RetrySendEvent`, when it returns, has kept the saved address and port. -/
theorem RetrySendEvent_endpoint (e : FString × FString) (r : Bool) (s t : UTcpClientObject)
    (h : RetrySendEvent e r s = Except.ok t) : endpoint t = endpoint s := by
  unfold RetrySendEvent at h
  cases hs : s.TcpSocket with
  | none => simp [hs] at h
  | some sock =>
    simp only [hs, Except.ok.injEq] at h
    subst h
    exact SendEvent_endpoint r _ _ _

/-- A timer firing, when it returns, has kept the saved address and port. -/
theorem fireTimer_endpoint (hd : TimerHandle) (R : TransportReplies) (s t : UTcpClientObject)
    (h : fireTimer hd R s = Except.ok t) : endpoint t = endpoint s := by
  unfold fireTimer at h
  cases htm : timerAt hd s with
  | none =>
    simp only [htm, Except.ok.injEq] at h
    subst h
    rfl
  | some tm =>
    simp only [htm] at h
    have h1 : endpoint (if tm.loop = true then s else expire hd s) = endpoint s := by
      cases tm.loop <;> cases hd <;> rfl
    generalize (if tm.loop = true then s else expire hd s) = u at h h1
    rw [← h1]
    cases hcb : tm.callback with
    | RetryConnectToServer =>
      simp only [hcb, invoke, Except.ok.injEq] at h
      subst h
      exact RetryConnectToServer_endpoint _ _
    | SendPing =>
      simp only [hcb, invoke, Except.ok.injEq] at h
      subst h
      exact SendEvent_endpoint _ _ _ _
    | RetrySendEvent =>
      simp only [hcb, invoke] at h
      exact RetrySendEvent_endpoint _ _ _ _ h

/-- C13: the saved address and port are kept by `DisconnectFromServer`,
`DisconnectAndResetConnection`, `RetryConnectToServer`, `SendEvent`,
`RetrySendEvent`, the three send commands, `Tick` and every timer firing,
whatever the state and the transport answers (for the calls that can end in a
fault: whenever they return; `RetrySendEvent` returns whenever the socket is
not null); after `ConnectToServer` with an address and a port, accepted or
refused, the saved endpoint is that address and port. -/
theorem endpoint_frame (s : UTcpClientObject) :
    endpoint (DisconnectFromServer s) = endpoint s
    ∧ endpoint (DisconnectAndResetConnection s) = endpoint s
    ∧ (∀ r, endpoint (RetryConnectToServer r s) = endpoint s)
    ∧ (∀ r n b, endpoint (SendEvent r s n b).2 = endpoint s)
    ∧ (∀ e r t, RetrySendEvent e r s = Except.ok t → endpoint t = endpoint s)
    ∧ (∀ e r, s.TcpSocket ≠ none → ∃ t, RetrySendEvent e r s = Except.ok t)
    ∧ (∀ r i x y, endpoint (SendMoveCommand r s i x y) = endpoint s)
    ∧ (∀ r n m, endpoint (SendChatMessage r s n m).2 = endpoint s)
    ∧ (∀ r n u m, endpoint (SendPrivateChatMessage r s n u m).2 = endpoint s)
    ∧ (∀ G ParsePacket packets t,
        Tick G ParsePacket packets s = Except.ok t → endpoint t = endpoint s)
    ∧ (∀ hd R t, fireTimer hd R s = Except.ok t → endpoint t = endpoint s)
    ∧ (∀ r a p, endpoint (ConnectToServer r s a p).2 = (a, p)) := by
  refine ⟨?_, ?_, fun r => RetryConnectToServer_endpoint r s,
    fun r n b => SendEvent_endpoint r s n b,
    fun e r t h => RetrySendEvent_endpoint e r s t h, ?_,
    fun r i x y => SendEvent_endpoint r s _ _, ?_, ?_, ?_,
    fun hd R t h => fireTimer_endpoint hd R s t h, ?_⟩
  · unfold DisconnectFromServer StopHeartbeatTimer
    cases s.TcpSocket <;> rfl
  · unfold DisconnectAndResetConnection StopHeartbeatTimer
    cases s.TcpSocket <;> rfl
  · intro e r hs
    unfold RetrySendEvent
    cases hsock : s.TcpSocket with
    | none => exact absurd hsock hs
    | some sock => exact ⟨_, rfl⟩
  · intro r n m
    unfold SendChatMessage
    cases s.bIsPlayerConnected <;> cases s.TcpSocket <;> rfl
  · intro r n u m
    unfold SendPrivateChatMessage
    cases s.bIsPlayerConnected <;> cases s.TcpSocket <;> rfl
  · intro G ParsePacket packets t h
    unfold Tick ReceivePackets at h
    split at h
    · simp only [Except.ok.injEq] at h
      subst h
      rfl
    · split at h
      · simp only [Except.ok.injEq] at h
        subst h
        rfl
      · exact receiveLoop_endpoint G ParsePacket packets s t h
  · intro r a p
    unfold ConnectToServer
    cases r <;> rfl

/-- Witness of `endpoint_frame`: on the connected session a retried send that
fails again and a tick that receives two events both return and keep the
endpoint given to the connect. -/
theorem endpoint_frame_witness :
    (∃ t, RetrySendEvent ("PING".toList, []) false connected = Except.ok t
          ∧ endpoint t = ("10.0.0.1".toList, 4000))
    ∧ (∃ t, Tick stubWorld lineParser ["MOVE,1,2.0,3.0\n".toList, "CHAT,bob,hi\n".toList]
              connected = Except.ok t
          ∧ endpoint t = ("10.0.0.1".toList, 4000)) :=
  have h := endpoint_frame connected
  ⟨⟨_, rfl, h.2.2.2.2.1 ("PING".toList, []) false _ rfl⟩,
   ⟨_, rfl, h.2.2.2.2.2.2.2.2.2.1 stubWorld lineParser
      ["MOVE,1,2.0,3.0\n".toList, "CHAT,bob,hi\n".toList] _ rfl⟩⟩

/-- A string without the delimiter is a single piece. -/
theorem pieces_of_not_mem (d : Char) (s : FString) (h : d ∉ s) : pieces d s = [s] := by
  induction s with
  | nil => rfl
  | cons c cs ih =>
    have hc : c ≠ d := fun e => h (by simp [e])
    have hcs : d ∉ cs := fun e => h (by simp [e])
    simp [pieces, hc, ih hcs]

/-- Pieces of two parts joined by the delimiter, the first part without it. -/
theorem pieces_append (d : Char) (a b : FString) (h : d ∉ a) :
    pieces d (a ++ d :: b) = a :: pieces d b := by
  induction a with
  | nil => simp [pieces]
  | cons c cs ih =>
    have hc : c ≠ d := fun e => h (by simp [e])
    have hcs : d ∉ cs := fun e => h (by simp [e])
    simp [pieces, hc, ih hcs]

/-- No piece contains the delimiter. -/
theorem not_mem_of_mem_pieces (d : Char) (s p : FString) (hp : p ∈ pieces d s) : d ∉ p := by
  induction s generalizing p with
  | nil =>
    simp only [pieces, List.mem_singleton] at hp
    subst hp
    simp
  | cons c cs ih =>
    by_cases hc : c = d
    · simp only [pieces, hc, if_true, List.mem_cons] at hp
      rcases hp with hp | hp
      · subst hp
        simp
      · exact ih p hp
    · simp only [pieces, hc, if_false] at hp
      cases hq : pieces d cs with
      | nil =>
        simp only [hq, List.mem_singleton] at hp
        subst hp
        simpa using fun e => hc e.symm
      | cons q qs =>
        simp only [hq, List.mem_cons] at hp
        rcases hp with hp | hp
        · subst hp
          have hq1 : d ∉ q := ih q (by simp [hq])
          simp only [List.mem_cons, not_or]
          exact ⟨fun e => hc e.symm, hq1⟩
        · exact ih p (by simp [hq, hp])

/-- Every field of the comma split is non-empty and free of the delimiter. -/
theorem mem_ParseIntoArray (d : Char) (s p : FString) (hp : p ∈ ParseIntoArray s d) :
    p ≠ [] ∧ d ∉ p := by
  unfold ParseIntoArray at hp
  rw [List.mem_filter] at hp
  refine ⟨?_, not_mem_of_mem_pieces d s p hp.1⟩
  intro e
  subst e
  simp at hp

/-- The chat handler broadcasts a given pair exactly when the comma split of
the body is that pair. -/
theorem OnChatMessage_eq_iff (EventBody a b : FString) :
    OnChatMessage EventBody = Except.ok [Action.OnChatMessageReceived a b]
      ↔ ParseIntoArray EventBody ',' = [a, b] := by
  unfold OnChatMessage
  generalize ParseIntoArray EventBody ',' = l
  rcases l with _ | ⟨x, _ | ⟨y, _ | ⟨z, l⟩⟩⟩ <;> simp

/-- The calls of the chat handler: nothing, or the broadcast of the two
fields of the body. -/
theorem OnChatMessage_calls (EventBody : FString) (calls : List Action)
    (h : OnChatMessage EventBody = Except.ok calls) :
    calls = [] ∨ ∃ a b, ParseIntoArray EventBody ',' = [a, b]
                        ∧ calls = [Action.OnChatMessageReceived a b] := by
  unfold OnChatMessage at h
  split at h
  · rename_i a b hab
    simp only [Except.ok.injEq] at h
    exact Or.inr ⟨a, b, hab, h.symm⟩
  · simp only [Except.ok.injEq] at h
    exact Or.inl h.symm

/-- The dispatcher hands an event named CHAT to the chat handler. -/
theorem OnPacketReceived_CHAT (G : GameWorld) (EventBody : FString) :
    OnPacketReceived G "CHAT".toList EventBody = OnChatMessage EventBody := by
  unfold OnPacketReceived
  rw [if_neg (by decide), if_neg (by decide), if_pos (by decide)]

/-- The comma split of sender, comma, message is the pair of the two exactly
when both are non-empty and free of commas. -/
theorem ParseIntoArray_chat_body (SenderName Message : FString) :
    ParseIntoArray (SenderName ++ ",".toList ++ Message) ',' = [SenderName, Message]
      ↔ SenderName ≠ [] ∧ Message ≠ [] ∧ ',' ∉ SenderName ∧ ',' ∉ Message := by
  constructor
  · intro h
    have h1 := mem_ParseIntoArray ',' _ SenderName (by rw [h]; simp)
    have h2 := mem_ParseIntoArray ',' _ Message (by rw [h]; simp)
    exact ⟨h1.1, h2.1, h1.2, h2.2⟩
  · rintro ⟨hs, hm, hcs, hcm⟩
    have hbody : SenderName ++ ",".toList ++ Message = SenderName ++ ',' :: Message := by
      simp
    rw [hbody]
    unfold ParseIntoArray
    rw [pieces_append ',' SenderName Message hcs, pieces_of_not_mem ',' Message hcm]
    cases SenderName with
    | nil => exact absurd rfl hs
    | cons c cs =>
      cases Message with
      | nil => exact absurd rfl hm
      | cons e es => rfl

/-- C15: the dispatch of the CHAT event whose body `SendChatMessage` builds
from a sender and a message (sender, comma, message) broadcasts the chat
notification with that sender and that message, and nothing else, exactly
when sender and message are both non-empty and free of commas; when the
message contains a comma, no call made by the dispatch is the notification
of that sender and message. -/
theorem chat_round_trip (G : GameWorld) (SenderName Message : FString) :
    sendCalls (SendChatMessage true connected SenderName Message).2.trace
      = [("CHAT".toList, SenderName ++ ",".toList ++ Message)]
    ∧ (OnPacketReceived G "CHAT".toList (SenderName ++ ",".toList ++ Message)
          = Except.ok [Action.OnChatMessageReceived SenderName Message]
        ↔ SenderName ≠ [] ∧ Message ≠ [] ∧ ',' ∉ SenderName ∧ ',' ∉ Message)
    ∧ (',' ∈ Message → ∀ calls,
        OnPacketReceived G "CHAT".toList (SenderName ++ ",".toList ++ Message)
          = Except.ok calls →
        Action.OnChatMessageReceived SenderName Message ∉ calls) := by
  refine ⟨rfl, ?_, ?_⟩
  · rw [OnPacketReceived_CHAT, OnChatMessage_eq_iff]
    exact ParseIntoArray_chat_body SenderName Message
  · intro hcomma calls hcalls hmem
    rw [OnPacketReceived_CHAT] at hcalls
    rcases OnChatMessage_calls _ calls hcalls with h | ⟨a, b, hab, h⟩
    · subst h
      simp at hmem
    · subst h
      simp only [List.mem_singleton, Action.OnChatMessageReceived.injEq] at hmem
      obtain ⟨ha, hb⟩ := hmem
      subst ha hb
      exact ((ParseIntoArray_chat_body _ _).mp hab).2.2.2 hcomma

/-- Witness of `chat_round_trip`: the message `hi, all` of sender `bob` comes
back as three fields, so the dispatch makes no call at all. -/
theorem chat_round_trip_witness :
    ',' ∈ "hi, all".toList
    ∧ OnPacketReceived stubWorld "CHAT".toList ("bob".toList ++ ",".toList ++ "hi, all".toList)
        = Except.ok []
    ∧ Action.OnChatMessageReceived "bob".toList "hi, all".toList ∉ ([] : List Action) :=
  ⟨by decide, rfl,
   (chat_round_trip stubWorld "bob".toList "hi, all".toList).2.2 (by decide) [] rfl⟩

/-- C8: a refused `ConnectToServer` never writes the connected flag. On the
connected session it returns false, replaces the socket without a
`Disconnect` call and arms the reconnect timer, but `IsPlayerConnected`
stays true; when the reconnect timer then fires, `RetryConnectToServer` sees
the flag set and asks for no connection, so the retry announced by the timer
never happens. Through `ReconnectToServer`, which clears the flag first, the
same refusal leaves the session not connected. -/
theorem ConnectToServer_failure_on_connected :
    (∀ (s : UTcpClientObject) (a : FString) (p : Int),
        IsPlayerConnected (ConnectToServer false s a p).2 = IsPlayerConnected s)
    ∧ IsPlayerConnected connected = true
    ∧ (ConnectToServer false connected "10.0.0.1".toList 4000).1 = false
    ∧ IsPlayerConnected (ConnectToServer false connected "10.0.0.1".toList 4000).2 = true
    ∧ (ConnectToServer false connected "10.0.0.1".toList 4000).2.trace
        = connected.trace ++ [Action.Connect "10.0.0.1".toList 4000,
                              Action.SetTimer TimerHandle.Reconnect reconnectTimer]
    ∧ (ConnectToServer false connected "10.0.0.1".toList 4000).2.ReconnectTimerHandle
        = some reconnectTimer
    ∧ (∀ R, fireTimer TimerHandle.Reconnect R
              (ConnectToServer false connected "10.0.0.1".toList 4000).2
          = Except.ok { (ConnectToServer false connected "10.0.0.1".toList 4000).2 with
                          ReconnectTimerHandle := none })
    ∧ IsPlayerConnected
        (ConnectToServer false (DisconnectAndResetConnection connected)
          "10.0.0.1".toList 4000).2 = false := by
  refine ⟨?_, by decide, by decide, by decide, by decide, by decide, fun _ => rfl, by decide⟩
  intro s a p
  simp [ConnectToServer, IsPlayerConnected]

end TcpClient
